import Mathlib

/-!
# Verification of the DIY Cloud user-management service

A shallow embedding of `src/usermgmt/user_management.py` (Flask API over a
SQLite store) and proofs about it.  The database tables become lists of
records, SQL statements become list operations, `subprocess` calls into
external capabilities become explicit oracle arguments, raised Python
exceptions become `Option`/sum results, and an HTTP response becomes a
`Resp` value carrying either a payload or a `(status, error, details)`
triple exactly as the handlers build them with `jsonify(...), code`.

Conventions kept throughout:
* time is an `Int` (a timestamp); `datetime.now()` becomes a `now` argument;
* `secrets.token_hex(32)` becomes a `newToken` argument (external entropy);
* `hashlib.sha256(password).hexdigest()` is modelled by an injective pure
  stand-in `generate_password_hash` (the library hash is external to the
  repository; no claim depends on the hash algorithm itself, only on
  equality of hashes);
* the `Authorization: Bearer <token>` header parsing in `require_auth` is
  elided: endpoints receive the extracted token directly.
-/

namespace DiyCloud

/-! ## Python `int(...)` and `str.replace` on quantity strings

`create_user` (lines 304-307) and `update_user` (lines 419-424) convert a
quantity string with

    int(s.replace('G', '')) * 1024 if 'G' in s else int(s.replace('M', ''))

`pyInt` models the builtin `int` applied to a decimal string: an optional
sign followed by one or more ASCII digits (Python additionally strips
whitespace and allows `_` separators; no input in this development uses
either).  `none` models the raised `ValueError`.  `stripChar` models
`str.replace(c, '')` for a single-character pattern: every occurrence of
`c` is removed.  `pyContains` models `c in s`. -/

def digitsVal (cs : List Char) : Nat :=
  cs.foldl (fun a c => a * 10 + (c.toNat - 48)) 0

def isDigits (cs : List Char) : Bool :=
  !cs.isEmpty && cs.all Char.isDigit

def pyIntCore (cs : List Char) : Option Int :=
  match cs with
  | [] => none
  | c :: rest =>
    if c = '-' then
      if isDigits rest then some (-(digitsVal rest : Int)) else none
    else if c = '+' then
      if isDigits rest then some ((digitsVal rest : Int)) else none
    else
      if isDigits (c :: rest) then some ((digitsVal (c :: rest) : Int)) else none

def pyInt (s : String) : Option Int := pyIntCore s.data

def stripChar (c : Char) (s : String) : String :=
  String.mk (s.data.filter (fun d => d ≠ c))

def pyContains (c : Char) (s : String) : Bool :=
  s.data.any (fun d => d = c)

/-- The quantity-to-megabytes conversion as written in `create_user`
(lines 306-307) and `update_user` (lines 423-424):
`int(s.replace('G','')) * 1024 if 'G' in s else int(s.replace('M',''))`.
`none` is the raised `ValueError`. -/
def toMB (s : String) : Option Int :=
  if pyContains 'G' s then (pyInt (stripChar 'G' s)).map (fun n => n * 1024)
  else pyInt (stripChar 'M' s)

/-! ## Data model

The SQLite tables `users`, `sessions`, `resource_allocations` and
`activity_log` become lists of records; a `DBState` is the whole store.
`cpu_limit` is a number the code never computes with (it is stored and
stringified for scripts), modelled as `Int`; `mem_limit` and `disk_quota`
are the quantity strings; timestamps are `Int`. -/

structure UserRow where
  id : Nat
  username : String
  password_hash : String
  email : String
  role : String
  is_active : Bool
  last_login : Option Int
  deriving Repr, DecidableEq

structure SessionRow where
  user_id : Nat
  session_token : String
  expires_at : Int
  ip_address : String
  deriving Repr, DecidableEq

structure ResourceRow where
  user_id : Nat
  cpu_limit : Int
  mem_limit : String
  disk_quota : String
  gpu_access : Bool
  deriving Repr, DecidableEq

structure ActivityRow where
  user_id : Nat
  timestamp : Int
  action : String
  deriving Repr, DecidableEq

structure DBState where
  users : List UserRow
  sessions : List SessionRow
  resources : List ResourceRow
  activity : List ActivityRow
  deriving Repr, DecidableEq

/-- An HTTP response: `ok v` is a 200/201 `jsonify(payload)`, `err status
error details` is `jsonify({'error': ..., 'details': ...}), status` (the
`details` string is `""` when the handler sends no details key). -/
inductive Resp (α : Type) where
  | ok (v : α)
  | err (status : Nat) (error : String) (details : String)
  deriving Repr, DecidableEq

def Resp.isOk {α : Type} : Resp α → Bool
  | .ok _ => true
  | .err _ _ _ => false

def Resp.statusIs {α : Type} (r : Resp α) (c : Nat) : Bool :=
  match r with
  | .ok _ => false
  | .err s _ _ => s = c

/-! ## Authentication functions (lines 51-128) -/

/-- Stand-in for `hashlib.sha256(password.encode()).hexdigest()` (line 53).
The hash algorithm lives outside the repository; what the code uses is
only that hashing is a pure function of the password, so an injective
tagged string models it. -/
def generate_password_hash (password : String) : String :=
  "sha256$" ++ password

/-- `verify_password` (line 57): re-hash and compare. -/
def verify_password (password password_hash : String) : Bool :=
  generate_password_hash password == password_hash

structure AuthUser where
  user_id : Nat
  username : String
  role : String
  deriving Repr, DecidableEq

/-- `verify_token` (lines 94-109): the SQL
`SELECT s.*, u.* FROM sessions s JOIN users u ON s.user_id = u.id
 WHERE s.session_token = ? AND s.expires_at > ?` —
a session row matching the token and strictly unexpired, joined against
its user row, the first such pair if any. -/
def verify_token (st : DBState) (token : String) (now : Int) : Option AuthUser :=
  match (st.sessions.filterMap (fun s =>
      if s.session_token == token && decide (now < s.expires_at) then
        (st.users.find? (fun u => u.id == s.user_id)).map (fun u => (s, u))
      else none)).head? with
  | some (s, u) => some { user_id := s.user_id, username := u.username, role := u.role }
  | none => none

structure LoginResult where
  token : String
  expires_at : Int
  user_id : Nat
  username : String
  role : String
  deriving Repr, DecidableEq

/-- Session TTL: `expires_at = now + TOKEN_EXPIRY_DAYS` with
`TOKEN_EXPIRY_DAYS = 1` day (line 19), as a timestamp offset. -/
def tokenExpiryOffset : Int := 86400

/-- `authenticate_user` (lines 63-92): look the username up; on a password
match insert a session row and update `last_login`, returning the login
payload; otherwise return `None` and leave the store unchanged.
`newToken` models `secrets.token_hex(32)`, `ip` models
`request.remote_addr`. -/
def authenticate_user (st : DBState) (username password : String)
    (now : Int) (newToken : String) (ip : String) :
    Option LoginResult × DBState :=
  match st.users.find? (fun u => u.username == username) with
  | some u =>
    if verify_password password u.password_hash then
      let expires_at := now + tokenExpiryOffset
      let st' : DBState :=
        { st with
          sessions := st.sessions ++
            [{ user_id := u.id, session_token := newToken,
               expires_at := expires_at, ip_address := ip }],
          users := st.users.map (fun v =>
            if v.id == u.id then { v with last_login := some now } else v) }
      (some { token := newToken, expires_at := expires_at, user_id := u.id,
              username := u.username, role := u.role }, st')
    else (none, st)
  | none => (none, st)

/-- The `/api/auth/login` endpoint (lines 174-187).  The request body must
carry a username and a password (else 400); then a failed authentication is
answered with the one generic message. -/
def login (st : DBState) (username password : Option String)
    (now : Int) (newToken : String) (ip : String) :
    Resp LoginResult × DBState :=
  match username, password with
  | some u, some p =>
    if u == "" || p == "" then
      (.err 400 "Username and password required" "", st)
    else
      match authenticate_user st u p now newToken ip with
      | (some res, st') => (.ok res, st')
      | (none, st') => (.err 401 "Invalid username or password" "", st')
  | _, _ => (.err 400 "Username and password required" "", st)

/-! ## The decorators (lines 111-141)

`require_auth` turns a missing/invalid/expired token into
`401 Invalid or expired token` before the handler runs; `require_admin`
turns a non-admin caller into `403 Admin privileges required`. -/

def withAuth {α : Type} (st : DBState) (token : String) (now : Int)
    (handler : AuthUser → Resp α × DBState) : Resp α × DBState :=
  match verify_token st token now with
  | none => (.err 401 "Invalid or expired token" "", st)
  | some u => handler u

def withAdmin {α : Type} (st : DBState) (u : AuthUser)
    (handler : AuthUser → Resp α × DBState) : Resp α × DBState :=
  if u.role == "admin" then handler u
  else (.err 403 "Admin privileges required" "", st)

/-- The `/api/auth/logout` endpoint (lines 189-198): behind `require_auth`,
then `DELETE FROM sessions WHERE session_token = ?`. -/
def logout (st : DBState) (token : String) (now : Int) :
    Resp String × DBState :=
  withAuth st token now (fun _ =>
    (.ok "Logged out successfully",
     { st with sessions :=
         st.sessions.filter (fun s => ¬ (s.session_token == token)) }))

/-! ## External capabilities

A `subprocess.run` of an enforcement/provisioning script either runs and
returns an exit status (`ran`/`fail`) or raises (`raised`, e.g. the binary
is absent).  Oracle arguments to the handlers model these calls. -/

inductive ExtResult where
  | ok
  | fail (stderr : String)
  | raised (msg : String)
  deriving Repr, DecidableEq

/-- Arguments the code passes to `create_user.sh` (lines 309-322). -/
structure ProvisionArgs where
  username : String
  password : String
  email : String
  cpu : Int
  mem_mb : Int
  disk_mb : Int
  role : String
  gpu : Bool
  deriving Repr, DecidableEq

/-- Arguments the code passes to `apply_limits.sh` via
`apply_resource_limits` (lines 144-166, call at 426-432). -/
structure ApplyArgs where
  username : String
  cpu : Int
  mem_mb : Int
  disk_mb : Int
  gpu : Bool
  deriving Repr, DecidableEq

/-! ## `create_user` (lines 255-344) -/

/-- The JSON body of a create request; `none` models an absent key. -/
structure CreateReq where
  username : Option String
  password : Option String
  email : Option String
  role : Option String
  is_active : Option Bool
  cpu_limit : Option Int
  mem_limit : Option String
  disk_quota : Option String
  gpu_access : Option Bool
  deriving Repr, DecidableEq

/-- SQLite assigns the next rowid, `max existing id + 1`. -/
def freshId (st : DBState) : Nat :=
  (st.users.foldl (fun a u => max a u.id) 0) + 1

/-- The `create_user` handler body (lines 258-344), after the decorators:
required-field check (400), duplicate username check (409), insert the
user row, insert the resource row with defaults `cpu=1.0, mem='2G',
disk='5G', gpu=False`, convert the quantities, run `create_user.sh`; on a
nonzero status or a raised error (including the `ValueError` from a bad
quantity) delete both rows again and answer 500. -/
def create_user_handler (st : DBState) (d : CreateReq)
    (provision : ProvisionArgs → ExtResult) : Resp Nat × DBState :=
  match d.username with
  | none => (.err 400 "Missing required field: username" "", st)
  | some username =>
  match d.password with
  | none => (.err 400 "Missing required field: password" "", st)
  | some password =>
  let email := d.email.getD ""
  let role := d.role.getD "user"
  let is_active := d.is_active.getD true
  match st.users.find? (fun u => u.username == username) with
  | some _ => (.err 409 "Username already exists" "", st)
  | none =>
    let password_hash := generate_password_hash password
    let st1 : DBState :=
      { st with users := st.users ++
          [{ id := freshId st, username := username, password_hash := password_hash,
             email := email, role := role, is_active := is_active,
             last_login := none }] }
    match st1.users.find? (fun u => u.username == username) with
    | none =>
      -- line 290 subscripts the row unconditionally; a missing row would raise
      -- a `TypeError` caught by the outer handler (no rollback).  Unreachable
      -- here: the row was just inserted.
      (.err 500 "Failed to create user" "TypeError", st1)
    | some newRow =>
    let user_id := newRow.id
    let cpu_limit := d.cpu_limit.getD 1
    let mem_limit := d.mem_limit.getD "2G"
    let disk_quota := d.disk_quota.getD "5G"
    let gpu_access := d.gpu_access.getD false
    let st2 : DBState :=
      { st1 with resources := st1.resources ++
          [{ user_id := user_id, cpu_limit := cpu_limit, mem_limit := mem_limit,
             disk_quota := disk_quota, gpu_access := gpu_access }] }
    let rollback : DBState :=
      { st2 with
        resources := st2.resources.filter (fun r => ¬ (r.user_id == user_id)),
        users := st2.users.filter (fun u => ¬ (u.id == user_id)) }
    match toMB mem_limit, toMB disk_quota with
    | some mem_mb, some disk_mb =>
      match provision { username := username, password := password, email := email,
                        cpu := cpu_limit, mem_mb := mem_mb, disk_mb := disk_mb,
                        role := role, gpu := gpu_access } with
      | .ok => (.ok user_id, st2)
      | .fail stderr => (.err 500 "Failed to create system user" stderr, rollback)
      | .raised msg => (.err 500 "Failed to create system user" msg, rollback)
    | none, _ => (.err 500 "Failed to create system user" "ValueError" , rollback)
    | some _, none => (.err 500 "Failed to create system user" "ValueError" , rollback)

/-- The `POST /api/users` endpoint: `require_auth`, `require_admin`, then
the handler. -/
def createUser (st : DBState) (token : String) (now : Int) (d : CreateReq)
    (provision : ProvisionArgs → ExtResult) : Resp Nat × DBState :=
  withAuth st token now (fun u =>
    withAdmin st u (fun _ => create_user_handler st d provision))

/-! ## `update_user` (lines 346-434) -/

/-- The JSON body of an update request; `none` models an absent key. -/
structure UpdateReq where
  email : Option String
  is_active : Option Bool
  password : Option String
  role : Option String
  cpu_limit : Option Int
  mem_limit : Option String
  disk_quota : Option String
  gpu_access : Option Bool
  deriving Repr, DecidableEq

/-- `admin_fields = ['role', 'cpu_limit', 'mem_limit', 'disk_quota',
'gpu_access']` (line 365): is any present in the body? -/
def UpdateReq.hasAdminField (d : UpdateReq) : Bool :=
  d.role.isSome || d.cpu_limit.isSome || d.mem_limit.isSome ||
    d.disk_quota.isSome || d.gpu_access.isSome

/-- The first admin-only field present, in the list order the loop at
line 369 walks them: the error message names this field. -/
def UpdateReq.firstAdminField (d : UpdateReq) : String :=
  if d.role.isSome then "role"
  else if d.cpu_limit.isSome then "cpu_limit"
  else if d.mem_limit.isSome then "mem_limit"
  else if d.disk_quota.isSome then "disk_quota"
  else "gpu_access"

/-- The `UPDATE users SET ...` built at lines 376-393: only `email`,
`is_active` and (when a password is supplied) `password_hash` columns are
ever in the update list — the loop at line 380 skips every admin field,
so `role` is never written. -/
def applyUserUpdates (d : UpdateReq) (u : UserRow) : UserRow :=
  { u with
    email := d.email.getD u.email,
    is_active := d.is_active.getD u.is_active,
    password_hash := match d.password with
      | some p => generate_password_hash p
      | none => u.password_hash }

/-- The `UPDATE resource_allocations SET ...` built at lines 397-411. -/
def applyResourceUpdates (d : UpdateReq) (r : ResourceRow) : ResourceRow :=
  { r with
    cpu_limit := d.cpu_limit.getD r.cpu_limit,
    mem_limit := d.mem_limit.getD r.mem_limit,
    disk_quota := d.disk_quota.getD r.disk_quota,
    gpu_access := d.gpu_access.getD r.gpu_access }

/-- The `update_user` handler body (lines 348-434): ownership check,
existence check, admin-only-field check for non-admin callers, then the
users-table update; for admin callers additionally the resource update,
the quantity conversion (whose `ValueError` at line 423 is uncaught — a
generic 500 — with the store already modified) and `apply_resource_limits`
whose boolean result the code discards. -/
def update_user_handler (st : DBState) (caller : AuthUser) (target : Nat)
    (d : UpdateReq) (applyLimits : ApplyArgs → Bool) : Resp String × DBState :=
  if ¬ (caller.role == "admin") && ¬ (caller.user_id == target) then
    (.err 403 "Access denied" "", st)
  else
    match st.users.find? (fun u => u.id == target) with
    | none => (.err 404 "User not found" "", st)
    | some existing_user =>
      if ¬ (caller.role == "admin") && d.hasAdminField then
        (.err 403 ("Field " ++ d.firstAdminField ++ " can only be updated by an admin") "", st)
      else
        let st1 : DBState :=
          { st with users := st.users.map (fun u =>
              if u.id == target then applyUserUpdates d u else u) }
        if caller.role == "admin" then
          if d.cpu_limit.isSome || d.mem_limit.isSome ||
              d.disk_quota.isSome || d.gpu_access.isSome then
            let st2 : DBState :=
              { st1 with resources := st1.resources.map (fun r =>
                  if r.user_id == target then applyResourceUpdates d r else r) }
            match st2.resources.find? (fun r => r.user_id == target) with
            | none => (.ok "User updated successfully", st2)
            | some resource =>
              match toMB resource.mem_limit, toMB resource.disk_quota with
              | some mem_mb, some disk_mb =>
                let _ := applyLimits
                  { username := existing_user.username, cpu := resource.cpu_limit,
                    mem_mb := mem_mb, disk_mb := disk_mb,
                    gpu := resource.gpu_access }
                (.ok "User updated successfully", st2)
              | none, _ => (.err 500 "Internal Server Error" "ValueError", st2)
              | some _, none => (.err 500 "Internal Server Error" "ValueError", st2)
          else (.ok "User updated successfully", st1)
        else (.ok "User updated successfully", st1)

/-- The `PUT /api/users/<id>` endpoint: `require_auth` then the handler
(no admin decorator; the ownership check is in the body). -/
def updateUser (st : DBState) (token : String) (now : Int) (target : Nat)
    (d : UpdateReq) (applyLimits : ApplyArgs → Bool) : Resp String × DBState :=
  withAuth st token now (fun u => update_user_handler st u target d applyLimits)

/-! ## `delete_user` (lines 436-475) -/

/-- The `delete_user` handler body (lines 439-475): existence check, the
`admin`-username guard, the self-deletion guard, then the four `DELETE`
statements, then `userdel -rf` on the system account; the 500 on a failed
`userdel` is reported with the rows already gone. -/
def delete_user_handler (st : DBState) (caller : AuthUser) (target : Nat)
    (removeAccount : String → ExtResult) : Resp String × DBState :=
  match st.users.find? (fun u => u.id == target) with
  | none => (.err 404 "User not found" "", st)
  | some existing_user =>
    if existing_user.username == "admin" then
      (.err 403 "Cannot delete the main admin user" "", st)
    else if caller.user_id == target then
      (.err 403 "Cannot delete your own account" "", st)
    else
      let st1 : DBState :=
        { users := st.users.filter (fun u => ¬ (u.id == target)),
          sessions := st.sessions.filter (fun s => ¬ (s.user_id == target)),
          resources := st.resources.filter (fun r => ¬ (r.user_id == target)),
          activity := st.activity.filter (fun a => ¬ (a.user_id == target)) }
      match removeAccount existing_user.username with
      | .ok => (.ok "User deleted successfully", st1)
      | .fail stderr => (.err 500 "Failed to delete system user" stderr, st1)
      | .raised msg => (.err 500 "Failed to delete system user" msg, st1)

/-- The `DELETE /api/users/<id>` endpoint: `require_auth`, `require_admin`,
then the handler. -/
def deleteUser (st : DBState) (token : String) (now : Int) (target : Nat)
    (removeAccount : String → ExtResult) : Resp String × DBState :=
  withAuth st token now (fun u =>
    withAdmin st u (fun caller => delete_user_handler st caller target removeAccount))

/-! ## `get_resource_usage` (lines 498-577)

Each introspection command either runs (`ran returncode out`, where
`out = none` models empty stdout — the `and result.stdout` guards) or
raises (`raised`).  The stdout of each command is carried already split
into its lines' parsed values; the text-level `splitlines`/`float`/`int`
parsing is mechanical and no claim concerns it.  Process CPU percentages
and the KB→MB division are Python floats, modelled as rationals. -/

inductive CmdRes (α : Type) where
  | ran (returncode : Int) (out : Option α)
  | raised (msg : String)
  deriving Repr, DecidableEq

/-- The five external commands the handler runs, for one account:
`ps -o %cpu`, `ps -o rss`, `du -sm`, `nvidia-smi --query-compute-apps`
(lines already split on `','`), `pgrep -u` (lines already stripped). -/
structure UsageOracles where
  psCpu : CmdRes (List Rat)
  psRss : CmdRes (List Int)
  du : CmdRes Int
  nvidiaApps : CmdRes (List (List String))
  pgrep : CmdRes (List String)

/-- The response payload of `get_resource_usage` (lines 568-573). -/
structure UsageSnapshot where
  cpu_usage : Rat
  mem_usage : Rat
  disk_usage : Int
  gpu_usage : List (String × String)
  deriving Repr, DecidableEq

/-- The accelerator part (lines 541-566): the inner `try` block.  Any
raised error — `nvidia-smi` absent, `pgrep` failing to run — falls into
`except: pass`, leaving `gpu_usage = []`; so does a nonzero status or
empty stdout of either command.  Otherwise each nvidia line with ≥ 2
comma-parts whose stripped pid is among the account's pids contributes a
`(pid, memory)` entry. -/
def gpuUsageOf (o : UsageOracles) : List (String × String) :=
  match o.nvidiaApps with
  | .raised _ => []
  | .ran nrc nout =>
    if nrc == 0 then
      match nout with
      | none => []
      | some nvLines =>
        match o.pgrep with
        | .raised _ => []
        | .ran prc pout =>
          if prc == 0 then
            match pout with
            | none => []
            | some user_pids =>
              nvLines.filterMap (fun parts =>
                match parts with
                | pid :: memory :: _ =>
                  if user_pids.contains pid.trim then
                    some (pid.trim, memory.trim)
                  else none
                | _ => none)
          else []
    else []

/-- The cpu part (lines 515-522): `0` unless the command succeeded with
output, else the sum of the per-process percentages. -/
def cpuUsageOf (o : UsageOracles) : Option Rat :=
  match o.psCpu with
  | .raised _ => none
  | .ran rc out =>
    some (if rc == 0 then
      match out with
      | some vs => vs.foldl (fun a b => a + b) 0
      | none => 0
    else 0)

/-- The memory part (lines 524-531): the summed RSS in KB divided by 1024. -/
def memUsageOf (o : UsageOracles) : Option Rat :=
  match o.psRss with
  | .raised _ => none
  | .ran rc out =>
    some (if rc == 0 then
      match out with
      | some vs => ((vs.foldl (fun a b => a + b) 0 : Int) : Rat) / 1024
      | none => 0
    else 0)

/-- The disk part (lines 533-539). -/
def diskUsageOf (o : UsageOracles) : Option Int :=
  match o.du with
  | .raised _ => none
  | .ran rc out => some (if rc == 0 then out.getD 0 else 0)

/-- The `get_resource_usage` handler body (lines 500-577): ownership
check, existence check, then the snapshot.  A raised error from the cpu,
memory or disk command escapes to the outer `try` and becomes a 500; the
accelerator part never does. -/
def get_resource_usage_handler (st : DBState) (caller : AuthUser)
    (target : Nat) (o : UsageOracles) : Resp UsageSnapshot :=
  if ¬ (caller.role == "admin") && ¬ (caller.user_id == target) then
    .err 403 "Access denied" ""
  else
    match st.users.find? (fun u => u.id == target) with
    | none => .err 404 "User not found" ""
    | some _ =>
      match cpuUsageOf o with
      | none => .err 500 "Failed to get resource usage" "raised"
      | some cpu_usage =>
        match memUsageOf o with
        | none => .err 500 "Failed to get resource usage" "raised"
        | some mem_usage =>
          match diskUsageOf o with
          | none => .err 500 "Failed to get resource usage" "raised"
          | some disk_usage =>
            .ok { cpu_usage := cpu_usage, mem_usage := mem_usage,
                  disk_usage := disk_usage, gpu_usage := gpuUsageOf o }

/-- The `GET /api/resources/<id>/usage` endpoint: `require_auth` then the
handler; the store is read-only here. -/
def getResourceUsage (st : DBState) (token : String) (now : Int)
    (target : Nat) (o : UsageOracles) : Resp UsageSnapshot × DBState :=
  withAuth st token now (fun u => (get_resource_usage_handler st u target o, st))

/-! ## Sample store contents, used to instantiate theorems -/

def adminRow : UserRow :=
  { id := 1, username := "admin", password_hash := generate_password_hash "adminpw",
    email := "root@host", role := "admin", is_active := true, last_login := none }

def bobRow : UserRow :=
  { id := 2, username := "bob", password_hash := generate_password_hash "bobpw",
    email := "bob@host", role := "user", is_active := true, last_login := none }

def adminSession : SessionRow :=
  { user_id := 1, session_token := "tokA", expires_at := 100, ip_address := "10.0.0.1" }

def bobSession : SessionRow :=
  { user_id := 2, session_token := "tokB", expires_at := 50, ip_address := "10.0.0.2" }

def bobResources : ResourceRow :=
  { user_id := 2, cpu_limit := 1, mem_limit := "2G", disk_quota := "5G", gpu_access := false }

def sampleState : DBState :=
  { users := [adminRow, bobRow],
    sessions := [adminSession, bobSession],
    resources := [bobResources],
    activity := [{ user_id := 2, timestamp := 1, action := "login" }] }

/-- An update request body with no keys. -/
def emptyUpdate : UpdateReq :=
  { email := none, is_active := none, password := none, role := none,
    cpu_limit := none, mem_limit := none, disk_quota := none, gpu_access := none }

/-- A create request body with only the required keys. -/
def baseCreate (username password : String) : CreateReq :=
  { username := some username, password := some password, email := none,
    role := none, is_active := none, cpu_limit := none, mem_limit := none,
    disk_quota := none, gpu_access := none }

/-- An external account-removal capability that always fails. -/
def failingRemove : String → ExtResult := fun _ => .fail "userdel failed"

/-- The authenticated identity `verify_token` yields for `"tokA"` in
`sampleState`. -/
def adminCaller : AuthUser := { user_id := 1, username := "admin", role := "admin" }

/-- An external account-provisioning capability that always fails. -/
def failingProvision : ProvisionArgs → ExtResult := fun _ => .fail "create_user.sh failed"

/-- The authenticated identity `verify_token` yields for `"tokB"` in
`sampleState` (before its expiry). -/
def bobCaller : AuthUser := { user_id := 2, username := "bob", role := "user" }

/-- An update request that only tries to set `role=admin`. -/
def roleUpdate : UpdateReq := { emptyUpdate with role := some "admin" }

/-- A limits-application capability that reports success (the code
discards the result anyway). -/
def trivialApply : ApplyArgs → Bool := fun _ => true

/-- Introspection oracles for a host whose accelerator tooling is absent:
`nvidia-smi` raises (command not found) while the cpu/memory/disk commands
succeed. -/
def offlineAccel : UsageOracles :=
  { psCpu := .ran 0 (some [1, 2]),
    psRss := .ran 0 (some [2048]),
    du := .ran 0 (some 42),
    nvidiaApps := .raised "nvidia-smi: command not found",
    pgrep := .ran 0 (some ["101"]) }

/-! # Helper lemmas -/

theorem foldl_max_init_le (us : List UserRow) : ∀ a : Nat,
    a ≤ us.foldl (fun x v => max x v.id) a := by
  induction us with
  | nil => intro a; exact Nat.le_refl a
  | cons v vs ih => intro a; exact Nat.le_trans (Nat.le_max_left a v.id) (ih (max a v.id))

theorem mem_id_le_foldl_max (us : List UserRow) (u : UserRow) : u ∈ us → ∀ a : Nat,
    u.id ≤ us.foldl (fun x v => max x v.id) a := by
  induction us with
  | nil => intro h; cases h
  | cons v vs ih =>
    intro h a
    cases h with
    | head => exact Nat.le_trans (Nat.le_max_right a u.id) (foldl_max_init_le vs (max a u.id))
    | tail _ hm => exact ih hm (max a v.id)

/-- Every stored user id is strictly below the id SQLite assigns next. -/
theorem mem_id_lt_freshId (st : DBState) (u : UserRow) (h : u ∈ st.users) :
    u.id < freshId st := Nat.lt_succ_of_le (mem_id_le_foldl_max _ u h 0)

theorem isDigit_ne_of_ne (c d : Char) (h : c.isDigit = true)
    (hd : d.isDigit = false) : c ≠ d := by
  intro he; subst he; rw [h] at hd; simp at hd

theorem digits_ne_char (cs : List Char) (h : isDigits cs = true) (c : Char)
    (hc : c.isDigit = false) : ∀ d ∈ cs, d ≠ c := by
  intro d hd
  have hdig : d.isDigit = true := by simp [isDigits] at h; exact h.2 d hd
  exact isDigit_ne_of_ne d c hdig hc

/-- Python `int` on a pure digit string yields its base-10 value. -/
theorem pyInt_digits (cs : List Char) (h : isDigits cs = true) :
    pyInt (String.mk cs) = some ((digitsVal cs : Int)) := by
  cases cs with
  | nil => simp [isDigits] at h
  | cons c rest =>
    have hc : c.isDigit = true := by
      have h2 := h
      simp [isDigits, List.all_cons] at h2
      exact h2.1
    unfold pyInt pyIntCore
    simp only []
    rw [if_neg (isDigit_ne_of_ne c '-' hc (by decide)),
        if_neg (isDigit_ne_of_ne c '+' hc (by decide)), if_pos h]

/-- `s.replace(c, '')` on `cs ++ [c]` with `c` absent from `cs` strips
exactly the final character. -/
theorem stripChar_of_not_mem (c : Char) (cs : List Char)
    (h : ∀ d ∈ cs, d ≠ c) :
    stripChar c (String.mk (cs ++ [c])) = String.mk cs := by
  unfold stripChar
  congr 1
  rw [List.filter_append]
  simp only [List.filter_cons, List.filter_nil]
  rw [List.filter_eq_self.mpr (by intro a ha; simpa using h a ha)]
  simp

theorem toMB_digits_G (gs : List Char) (hg : isDigits gs = true) :
    toMB (String.mk (gs ++ ['G'])) = some ((digitsVal gs : Int) * 1024) := by
  unfold toMB
  rw [if_pos (by simp [pyContains])]
  rw [stripChar_of_not_mem _ _ (digits_ne_char gs hg 'G' (by decide)),
      pyInt_digits gs hg]
  rfl

theorem toMB_digits_M (ms : List Char) (hm : isDigits ms = true) :
    toMB (String.mk (ms ++ ['M'])) = some ((digitsVal ms : Int)) := by
  unfold toMB
  rw [if_neg ?hng]
  case hng =>
    simp [pyContains]
    intro hmem
    exact digits_ne_char ms hm 'G' (by decide) 'G' hmem rfl
  rw [stripChar_of_not_mem _ _ (digits_ne_char ms hm 'M' (by decide)),
      pyInt_digits ms hm]

/-! # Claims -/

/-- C1, counterexample.  The claim requires the conversion to reject every
input that is not `<integer>G` or `<integer>M`.  The code accepts `"512"`
(no unit at all) as 512 MB and `"1G1"` — stripping the interior `'G'` —
as 11 GB = 11264 MB, so the third part of the claim is false: the
conversion is permissive substring stripping, exactly what the spec rules
out. -/
theorem C1_strict_parser_counterexample :
    toMB "512" = some 512 ∧ toMB "512" ≠ none ∧ toMB "1G1" = some 11264 := by
  refine ⟨by decide, by decide, by decide⟩

/-- C1, amended.  `<digits>G` converts to the value times 1024 and
`<digits>M` to the literal megabytes, and a non-numeric magnitude such as
`"2X"` raises (`none`, a Python `ValueError` surfaced as a generic 500,
not a `ValidationError`); but the conversion is permissive substring
stripping, not a strict parser: `"512"` (no unit) is accepted as literal
megabytes and `"1G1"` as 11*1024 MB. -/
theorem C1_quantity_conversion (gs ms : List Char)
    (hg : isDigits gs = true) (hm : isDigits ms = true) :
    toMB (String.mk (gs ++ ['G'])) = some ((digitsVal gs : Int) * 1024) ∧
    toMB (String.mk (ms ++ ['M'])) = some ((digitsVal ms : Int)) ∧
    toMB "2X" = none ∧
    toMB "512" = some 512 ∧
    toMB "1G1" = some 11264 :=
  ⟨toMB_digits_G gs hg, toMB_digits_M ms hm, by decide, by decide, by decide⟩

/-- C1, witness: the amended theorem applied at `"2G"` and `"512M"`. -/
theorem C1_quantity_conversion_witness :
    toMB (String.mk (['2'] ++ ['G'])) = some ((digitsVal ['2'] : Int) * 1024) ∧
    toMB (String.mk (['5', '1', '2'] ++ ['M'])) = some ((digitsVal ['5', '1', '2'] : Int)) ∧
    toMB "2X" = none ∧
    toMB "512" = some 512 ∧
    toMB "1G1" = some 11264 :=
  C1_quantity_conversion ['2'] ['5', '1', '2'] (by decide) (by decide)

/-- C2, counterexample.  The claim says logout of an already-expired token
"succeeds as a no-op and never returns an error".  But the route is behind
`require_auth` (line 190), which rejects any token `verify_token` does not
accept — in particular an expired one.  In `sampleState` the token
`"tokB"` has a session with `expires_at = 50`; logging it out at time 60
returns `401 Invalid or expired token` instead of succeeding.  (A revoked
or absent token takes the same branch.) -/
theorem C2_logout_expired_counterexample :
    (∃ s ∈ sampleState.sessions, s.session_token = "tokB" ∧ s.expires_at ≤ 60) ∧
    (logout sampleState "tokB" 60).1 = Resp.err 401 "Invalid or expired token" "" := by
  refine ⟨by decide, by decide⟩

/-- C2, amended.  Logout requires a currently-valid token: behind
`require_auth`, an expired, revoked or absent token is answered with
`401 Invalid or expired token` and the store is untouched; with a valid
token the operation deletes every session row bearing the token (so no
session with it remains) and succeeds. -/
theorem C2_logout_requires_valid_token (st : DBState) (token : String) (now : Int) :
    (logout st token now =
      if (verify_token st token now).isSome then
        (.ok "Logged out successfully",
         { st with sessions := st.sessions.filter (fun s => ¬ (s.session_token == token)) })
      else (.err 401 "Invalid or expired token" "", st)) ∧
    ((verify_token st token now).isSome = true →
      ∀ s ∈ (logout st token now).2.sessions, s.session_token ≠ token) := by
  constructor
  · unfold logout withAuth
    cases h : verify_token st token now with
    | none => simp [h]
    | some u => simp [h]
  · intro hs s hmem
    unfold logout withAuth at hmem
    cases h : verify_token st token now with
    | none => rw [h] at hs; simp at hs
    | some u =>
      rw [h] at hmem
      simp at hmem
      exact fun he => hmem.2 (by simp [he])

/-- C2, witness: in `sampleState` the token `"tokA"` is valid at time 10,
and after logging it out no session with it remains. -/
theorem C2_logout_witness :
    (verify_token sampleState "tokA" 10).isSome = true ∧
    ∀ s ∈ (logout sampleState "tokA" 10).2.sessions, s.session_token ≠ "tokA" :=
  ⟨by decide, (C2_logout_requires_valid_token sampleState "tokA" 10).2 (by decide)⟩

/-- C3, counterexample.  The claim says that after a deletion in which the
external removal fails, the persisted rows are either all still present or
the operation completed fully.  Deleting `bob` (id 2) from `sampleState`
with a failing `userdel`: the response is a 500 error (not completed), yet
bob's Account, Quota, Session and Audit rows — all present before — are
gone.  The code deletes the rows first (lines 458-461) and never
compensates. -/
theorem C3_delete_partial_state_counterexample :
    (deleteUser sampleState "tokA" 10 2 failingRemove).1
        = Resp.err 500 "Failed to delete system user" "userdel failed" ∧
    (sampleState.users.find? (fun u => u.id == 2)).isSome = true ∧
    (sampleState.resources.find? (fun r => r.user_id == 2)).isSome = true ∧
    (sampleState.sessions.find? (fun s => s.user_id == 2)).isSome = true ∧
    (sampleState.activity.find? (fun a => a.user_id == 2)).isSome = true ∧
    (deleteUser sampleState "tokA" 10 2 failingRemove).2.users.find? (fun u => u.id == 2) = none ∧
    (deleteUser sampleState "tokA" 10 2 failingRemove).2.resources.find? (fun r => r.user_id == 2) = none ∧
    (deleteUser sampleState "tokA" 10 2 failingRemove).2.sessions.find? (fun s => s.user_id == 2) = none ∧
    (deleteUser sampleState "tokA" 10 2 failingRemove).2.activity.find? (fun a => a.user_id == 2) = none := by
  refine ⟨by decide, by decide, by decide, by decide, by decide, by decide, by decide, by decide, by decide⟩

/-- C3, amended.  When the external account-removal capability fails after
the operation begins, the persisted rows (Account, Quota, Sessions, Audit
entries) have already been removed and stay removed — the code deletes
them before invoking external removal and performs no compensation — and
the failure is reported as a 500 error; the state is a partial
application: persisted deletion fully applied, external removal not. -/
theorem C3_delete_external_failure_leaves_rows_deleted
    (st : DBState) (token : String) (now : Int) (target : Nat)
    (removeAccount : String → ExtResult) (caller : AuthUser) (ex : UserRow)
    (hauth : verify_token st token now = some caller)
    (hadmin : caller.role = "admin")
    (hex : st.users.find? (fun u => u.id == target) = some ex)
    (hname : ex.username ≠ "admin")
    (hself : caller.user_id ≠ target)
    (hfail : removeAccount ex.username ≠ .ok) :
    (deleteUser st token now target removeAccount).1.statusIs 500 = true ∧
    (deleteUser st token now target removeAccount).2 =
      { users := st.users.filter (fun u => ¬ (u.id == target)),
        sessions := st.sessions.filter (fun s => ¬ (s.user_id == target)),
        resources := st.resources.filter (fun r => ¬ (r.user_id == target)),
        activity := st.activity.filter (fun a => ¬ (a.user_id == target)) } ∧
    ∀ u ∈ (deleteUser st token now target removeAccount).2.users, u.id ≠ target := by
  unfold deleteUser withAuth withAdmin delete_user_handler
  simp only [hauth, hadmin]
  rw [if_pos (by simp)]
  simp only [hex]
  rw [if_neg (by simp [hname])]
  rw [if_neg (by simp [hself])]
  cases hrm : removeAccount ex.username with
  | ok => exact absurd hrm hfail
  | fail stderr =>
    refine ⟨by simp [Resp.statusIs], rfl, ?_⟩
    intro u hmem
    simp at hmem
    exact hmem.2
  | raised msg =>
    refine ⟨by simp [Resp.statusIs], rfl, ?_⟩
    intro u hmem
    simp at hmem
    exact hmem.2

/-- C3, witness: the amended theorem applied to deleting `bob` from
`sampleState` with a failing removal capability. -/
theorem C3_delete_external_failure_witness :
    (deleteUser sampleState "tokA" 10 2 failingRemove).1.statusIs 500 = true ∧
    (deleteUser sampleState "tokA" 10 2 failingRemove).2 =
      { users := sampleState.users.filter (fun u => ¬ (u.id == 2)),
        sessions := sampleState.sessions.filter (fun s => ¬ (s.user_id == 2)),
        resources := sampleState.resources.filter (fun r => ¬ (r.user_id == 2)),
        activity := sampleState.activity.filter (fun a => ¬ (a.user_id == 2)) } ∧
    ∀ u ∈ (deleteUser sampleState "tokA" 10 2 failingRemove).2.users, u.id ≠ 2 :=
  C3_delete_external_failure_leaves_rows_deleted sampleState "tokA" 10 2
    failingRemove adminCaller bobRow (by decide) rfl (by decide) (by decide)
    (by decide) (by decide)

/-- C4, confirmed.  If the external provisioning capability fails — by a
nonzero exit status or a raised error, including the `ValueError` from a
bad quantity string — after the Account and Quota rows were written, the
rollback at lines 329-330/336-337 removes both rows before the 500 error
is returned: the final users and resources tables equal the initial ones,
and looking the username up afterwards finds nothing.  (`hwf` says every
quota row belongs to an existing account, so the rollback, which deletes
by the new id, touches nothing pre-existing.) -/
theorem C4_create_rollback_on_provision_failure
    (st : DBState) (token : String) (now : Int) (d : CreateReq)
    (provision : ProvisionArgs → ExtResult) (caller : AuthUser)
    (username password : String)
    (hauth : verify_token st token now = some caller)
    (hadmin : caller.role = "admin")
    (hun : d.username = some username)
    (hpw : d.password = some password)
    (hnew : st.users.find? (fun u => u.username == username) = none)
    (hwf : ∀ r ∈ st.resources, ∃ u ∈ st.users, u.id = r.user_id)
    (hprov : ∀ a, provision a ≠ .ok) :
    (createUser st token now d provision).1.statusIs 500 = true ∧
    (createUser st token now d provision).2.users = st.users ∧
    (createUser st token now d provision).2.resources = st.resources ∧
    (createUser st token now d provision).2.users.find? (fun u => u.username == username) = none := by
  unfold createUser withAuth withAdmin create_user_handler
  simp only [hauth, hadmin]
  rw [if_pos (by simp)]
  simp only [hun, hpw, hnew]
  rw [List.find?_append, hnew]
  simp only [Option.none_or, List.find?_cons, List.find?_nil, beq_self_eq_true]
  have husers : ∀ x : UserRow, x.id = freshId st →
      (st.users ++ [x]).filter (fun u => ¬ (u.id == freshId st)) = st.users := by
    intro x hx
    rw [List.filter_append, List.filter_eq_self.mpr ?ha]
    case ha =>
      intro u hu
      simp
      exact Nat.ne_of_lt (mem_id_lt_freshId st u hu)
    simp [hx]
  have hres : ∀ x : ResourceRow, x.user_id = freshId st →
      (st.resources ++ [x]).filter (fun r => ¬ (r.user_id == freshId st)) = st.resources := by
    intro x hx
    rw [List.filter_append, List.filter_eq_self.mpr ?hb]
    case hb =>
      intro r hr
      simp
      obtain ⟨u, hu, he⟩ := hwf r hr
      rw [← he]
      exact Nat.ne_of_lt (mem_id_lt_freshId st u hu)
    simp [hx]
  split
  case _ mem_mb disk_mb hm hdk =>
    split
    case _ heq => exact absurd heq (hprov _)
    case _ stderr heq =>
      refine ⟨by simp [Resp.statusIs], husers _ rfl, hres _ rfl, ?_⟩
      rw [husers _ rfl]
      exact hnew
    case _ msg heq =>
      refine ⟨by simp [Resp.statusIs], husers _ rfl, hres _ rfl, ?_⟩
      rw [husers _ rfl]
      exact hnew
  case _ hm =>
    refine ⟨by simp [Resp.statusIs], husers _ rfl, hres _ rfl, ?_⟩
    rw [husers _ rfl]
    exact hnew
  case _ mem_mb hm =>
    refine ⟨by simp [Resp.statusIs], husers _ rfl, hres _ rfl, ?_⟩
    rw [husers _ rfl]
    exact hnew

/-- C4, witness: the admin creates `"carol"` in `sampleState` and the
provisioning script fails; afterwards the store is as before and carol is
not found. -/
theorem C4_create_rollback_witness :
    (createUser sampleState "tokA" 10 (baseCreate "carol" "pw") failingProvision).1.statusIs 500 = true ∧
    (createUser sampleState "tokA" 10 (baseCreate "carol" "pw") failingProvision).2.users = sampleState.users ∧
    (createUser sampleState "tokA" 10 (baseCreate "carol" "pw") failingProvision).2.resources = sampleState.resources ∧
    (createUser sampleState "tokA" 10 (baseCreate "carol" "pw") failingProvision).2.users.find?
      (fun u => u.username == "carol") = none :=
  C4_create_rollback_on_provision_failure sampleState "tokA" 10
    (baseCreate "carol" "pw") failingProvision adminCaller "carol" "pw"
    (by decide) rfl rfl rfl (by decide) (by decide)
    (fun a h => by simp [failingProvision] at h)

/-- The `WHERE s.session_token = ? AND s.expires_at > ?` row filter of
`verify_token`, as an iff: under referential integrity of sessions
(`hwf`), verification succeeds exactly when some session row carries the
token and is strictly unexpired. -/
theorem verify_token_isSome_iff (st : DBState) (token : String) (now : Int)
    (hwf : ∀ s ∈ st.sessions, ∃ u ∈ st.users, u.id = s.user_id) :
    ((verify_token st token now).isSome = true ↔
      ∃ s ∈ st.sessions, s.session_token = token ∧ now < s.expires_at) := by
  unfold verify_token
  constructor
  · intro h
    cases hh : (st.sessions.filterMap (fun s =>
        if s.session_token == token && decide (now < s.expires_at) then
          (st.users.find? (fun u => u.id == s.user_id)).map (fun u => (s, u))
        else none)).head? with
    | none => rw [hh] at h; simp at h
    | some p =>
      obtain ⟨s, u⟩ := p
      have hmem := List.mem_of_mem_head? hh
      rw [List.mem_filterMap] at hmem
      obtain ⟨a, ha, hfa⟩ := hmem
      by_cases hp : (a.session_token == token && decide (now < a.expires_at)) = true
      · rw [if_pos hp] at hfa
        obtain ⟨u', hu', he⟩ := Option.map_eq_some'.mp hfa
        obtain ⟨he1, he2⟩ := Prod.mk.injEq .. ▸ he
        subst he1
        simp at hp
        exact ⟨a, ha, hp.1, hp.2⟩
      · rw [if_neg hp] at hfa
        cases hfa
  · rintro ⟨s, hs, htok, hexp⟩
    have hne : (st.sessions.filterMap (fun s =>
        if s.session_token == token && decide (now < s.expires_at) then
          (st.users.find? (fun u => u.id == s.user_id)).map (fun u => (s, u))
        else none)) ≠ [] := by
      intro hnil
      rw [List.filterMap_eq_nil_iff] at hnil
      have hf := hnil s hs
      rw [if_pos (by simp [htok, hexp])] at hf
      obtain ⟨u, hu, he⟩ := hwf s hs
      have hfs : (st.users.find? (fun v => v.id == s.user_id)).isSome = true :=
        List.find?_isSome.mpr ⟨u, hu, by simp [he]⟩
      cases hfind : st.users.find? (fun v => v.id == s.user_id) with
      | none => rw [hfind] at hfs; simp at hfs
      | some w => rw [hfind] at hf; simp at hf
    cases hh : (st.sessions.filterMap (fun s =>
        if s.session_token == token && decide (now < s.expires_at) then
          (st.users.find? (fun u => u.id == s.user_id)).map (fun u => (s, u))
        else none)).head? with
    | none => exact absurd (List.head?_eq_none_iff.mp hh) hne
    | some p =>
      obtain ⟨a, b⟩ := p
      rfl

/-- C5, confirmed.  Token verification succeeds iff a session row with the
token exists and `now < expires_at` strictly; consequently a session is
still valid at `expires_at - 1` and, once every session bearing the token
has `expires_at ≤ t`, verification at `t` returns `None` — which
`require_auth` then answers with the 401 `AuthenticationError`.  `hwf` is
referential integrity: each session's `user_id` names a stored user (the
`JOIN` in the query needs the user row). -/
theorem C5_session_expiry_strict (st : DBState) (token : String)
    (hwf : ∀ s ∈ st.sessions, ∃ u ∈ st.users, u.id = s.user_id) :
    (∀ now : Int, ((verify_token st token now).isSome = true ↔
        ∃ s ∈ st.sessions, s.session_token = token ∧ now < s.expires_at)) ∧
    (∀ s ∈ st.sessions, s.session_token = token →
        (verify_token st token (s.expires_at - 1)).isSome = true) ∧
    (∀ t : Int, (∀ s ∈ st.sessions, s.session_token = token → s.expires_at ≤ t) →
        verify_token st token t = none) := by
  refine ⟨fun now => verify_token_isSome_iff st token now hwf, ?_, ?_⟩
  · intro s hs htok
    exact (verify_token_isSome_iff st token (s.expires_at - 1) hwf).mpr
      ⟨s, hs, htok, by omega⟩
  · intro t hall
    cases hv : verify_token st token t with
    | none => rfl
    | some u =>
      have hsome : (verify_token st token t).isSome = true := by rw [hv]; rfl
      obtain ⟨s, hs, htok, hlt⟩ := (verify_token_isSome_iff st token t hwf).mp hsome
      exact absurd (hall s hs htok) (by omega)

/-- C5, witness: bob's session in `sampleState` expires at 50; the token
verifies at 49 and no longer verifies at 50. -/
theorem C5_session_expiry_witness :
    (verify_token sampleState "tokB" (bobSession.expires_at - 1)).isSome = true ∧
    verify_token sampleState "tokB" 50 = none :=
  ⟨(C5_session_expiry_strict sampleState "tokB" (by decide)).2.1 bobSession
      (by decide) rfl,
   (C5_session_expiry_strict sampleState "tokB" (by decide)).2.2 50 (by decide)⟩

/-- C6, confirmed.  Deleting the protected `admin` account, or an account
deleting itself, is rejected with a 403 `AuthorizationError` by the guards
at lines 447-452, which run before the `DELETE` statements: the store is
returned untouched — no Account, Quota, Session or Audit row is removed. -/
theorem C6_protected_delete_rejected
    (st : DBState) (token : String) (now : Int) (target : Nat)
    (removeAccount : String → ExtResult) (caller : AuthUser) (ex : UserRow)
    (hauth : verify_token st token now = some caller)
    (hadmin : caller.role = "admin")
    (hex : st.users.find? (fun u => u.id == target) = some ex)
    (hprot : ex.username = "admin" ∨ caller.user_id = target) :
    (deleteUser st token now target removeAccount).1.statusIs 403 = true ∧
    (deleteUser st token now target removeAccount).2 = st := by
  unfold deleteUser withAuth withAdmin delete_user_handler
  simp only [hauth, hadmin]
  rw [if_pos (by simp)]
  simp only [hex]
  by_cases hn : (ex.username == "admin") = true
  · rw [if_pos hn]
    exact ⟨by simp [Resp.statusIs], rfl⟩
  · rw [if_neg hn]
    cases hprot with
    | inl h => exact absurd (by simp [h]) hn
    | inr h =>
      rw [if_pos (by simp [h])]
      exact ⟨by simp [Resp.statusIs], rfl⟩

/-- C6, witness: the admin attempts to delete the root `admin` account
(its own account, so both guards apply) in `sampleState`; the request is
rejected with 403 and the store is unchanged. -/
theorem C6_protected_delete_witness :
    (deleteUser sampleState "tokA" 10 1 failingRemove).1.statusIs 403 = true ∧
    (deleteUser sampleState "tokA" 10 1 failingRemove).2 = sampleState :=
  C6_protected_delete_rejected sampleState "tokA" 10 1 failingRemove
    adminCaller adminRow (by decide) rfl (by decide) (Or.inl rfl)

/-- A successful `verify_token` names a stored user: the `JOIN` only
returns session rows paired with their user row. -/
theorem verify_token_user_exists (st : DBState) (token : String) (now : Int)
    (caller : AuthUser) (h : verify_token st token now = some caller) :
    ∃ u ∈ st.users, u.id = caller.user_id := by
  unfold verify_token at h
  cases hh : (st.sessions.filterMap (fun s =>
      if s.session_token == token && decide (now < s.expires_at) then
        (st.users.find? (fun u => u.id == s.user_id)).map (fun u => (s, u))
      else none)).head? with
  | none => rw [hh] at h; cases h
  | some p =>
    obtain ⟨s, u⟩ := p
    rw [hh] at h
    simp only [Option.some.injEq] at h
    have hcid : caller.user_id = s.user_id := by rw [← h]
    have hmem := List.mem_of_mem_head? hh
    rw [List.mem_filterMap] at hmem
    obtain ⟨a, ha, hfa⟩ := hmem
    by_cases hp : (a.session_token == token && decide (now < a.expires_at)) = true
    · rw [if_pos hp] at hfa
      obtain ⟨u', hu', he⟩ := Option.map_eq_some'.mp hfa
      have hmemu := List.mem_of_find?_eq_some hu'
      have hpu := List.find?_some hu'
      have ha1 : a = s := (Prod.mk.injEq .. ▸ he).1
      refine ⟨u', hmemu, ?_⟩
      rw [hcid, ← ha1]
      exact Nat.eq_of_beq_eq_true (by simpa using hpu)
    · rw [if_neg hp] at hfa
      cases hfa

/-- C7, confirmed.  A non-admin caller whose update request carries an
admin-only field (`role`, `cpu_limit`, `mem_limit`, `disk_quota`,
`gpu_access`) — on any target, their own account included — is rejected
with a 403 `AuthorizationError` and the store is returned untouched: on a
foreign target the ownership check at line 351 fires, on their own
account the admin-field check at lines 368-371 fires, both before any
write. -/
theorem C7_non_admin_field_rejected
    (st : DBState) (token : String) (now : Int) (target : Nat)
    (d : UpdateReq) (applyLimits : ApplyArgs → Bool) (caller : AuthUser)
    (hauth : verify_token st token now = some caller)
    (hrole : caller.role ≠ "admin")
    (hfield : d.hasAdminField = true) :
    (updateUser st token now target d applyLimits).1.statusIs 403 = true ∧
    (updateUser st token now target d applyLimits).2 = st := by
  unfold updateUser withAuth update_user_handler
  simp only [hauth]
  by_cases ht : caller.user_id = target
  · rw [if_neg (by simp [ht])]
    obtain ⟨u, hu, hid⟩ := verify_token_user_exists st token now caller hauth
    cases hfind : st.users.find? (fun v => v.id == target) with
    | none =>
      rw [List.find?_eq_none] at hfind
      exact absurd (by simp [hid, ht] : ((fun v => v.id == target) u) = true)
        (by simpa using hfind u hu)
    | some ex =>
      rw [if_pos (by simp [hrole, hfield])]
      exact ⟨by simp [Resp.statusIs], rfl⟩
  · rw [if_pos (by simp [hrole, ht])]
    exact ⟨by simp [Resp.statusIs], rfl⟩

/-- C7, witness: non-admin bob sets `role=admin` on his own account in
`sampleState`; the request is rejected with 403 and nothing is stored —
in particular bob's role is still `"user"`. -/
theorem C7_non_admin_field_witness :
    (updateUser sampleState "tokB" 40 2 roleUpdate trivialApply).1.statusIs 403 = true ∧
    (updateUser sampleState "tokB" 40 2 roleUpdate trivialApply).2 = sampleState :=
  C7_non_admin_field_rejected sampleState "tokB" 40 2 roleUpdate trivialApply
    bobCaller (by decide) (by decide) (by decide)

/-- C8, confirmed.  A login with a nonexistent username and a login with an
existing username but a wrong password both fall through
`authenticate_user`'s single `if user and verify_password(...)` guard to
`None`, and the endpoint answers both with the one generic
`401 Invalid username or password` — the two error results are equal, so
the caller cannot tell the causes apart. -/
theorem C8_login_failure_indistinguishable
    (st : DBState) (u1 p1 u2 p2 : String) (now1 now2 : Int)
    (t1 t2 ip1 ip2 : String) (ex : UserRow)
    (hne1 : u1 ≠ "") (hne2 : p1 ≠ "") (hne3 : u2 ≠ "") (hne4 : p2 ≠ "")
    (h1 : st.users.find? (fun u => u.username == u1) = none)
    (h2 : st.users.find? (fun u => u.username == u2) = some ex)
    (hp : verify_password p2 ex.password_hash = false) :
    (login st (some u1) (some p1) now1 t1 ip1).1 = .err 401 "Invalid username or password" "" ∧
    (login st (some u2) (some p2) now2 t2 ip2).1 = .err 401 "Invalid username or password" "" ∧
    (login st (some u1) (some p1) now1 t1 ip1).1 = (login st (some u2) (some p2) now2 t2 ip2).1 := by
  have e1 : (login st (some u1) (some p1) now1 t1 ip1).1 = .err 401 "Invalid username or password" "" := by
    simp only [login, authenticate_user]
    rw [if_neg (by simp [hne1, hne2])]
    simp only [h1]
  have e2 : (login st (some u2) (some p2) now2 t2 ip2).1 = .err 401 "Invalid username or password" "" := by
    simp only [login, authenticate_user]
    rw [if_neg (by simp [hne3, hne4])]
    simp only [h2, hp]
    rw [if_neg (by simp [hp])]
  exact ⟨e1, e2, by rw [e1, e2]⟩

/-- C8, witness: in `sampleState`, username `"ghost"` does not exist and
`"bob"` exists with a different password; both logins produce the same
generic 401. -/
theorem C8_login_failure_witness :
    (login sampleState (some "ghost") (some "x") 10 "t1" "ip1").1 = .err 401 "Invalid username or password" "" ∧
    (login sampleState (some "bob") (some "wrong") 11 "t2" "ip2").1 = .err 401 "Invalid username or password" "" ∧
    (login sampleState (some "ghost") (some "x") 10 "t1" "ip1").1 =
      (login sampleState (some "bob") (some "wrong") 11 "t2" "ip2").1 :=
  C8_login_failure_indistinguishable sampleState "ghost" "x" "bob" "wrong"
    10 11 "t1" "t2" "ip1" "ip2" bobRow (by decide) (by decide) (by decide)
    (by decide) (by decide) (by decide) (by decide)

/-- C9, confirmed.  When the accelerator-telemetry capability is absent
(raises) or fails (nonzero status), the usage request for an account still
succeeds: the inner `try/except: pass` at lines 545-566 leaves
`gpu_usage = []` and the response carries the complete cpu/memory/disk
figures computed from the other commands; no error is propagated.
(`hcpu`/`hmem`/`hdisk` say those three commands ran — a raised error from
them is a different failure the claim does not cover.) -/
theorem C9_usage_degrades_without_accelerator
    (st : DBState) (token : String) (now : Int) (target : Nat)
    (o : UsageOracles) (caller : AuthUser) (cv mv : Rat) (dv : Int)
    (hauth : verify_token st token now = some caller)
    (hown : caller.role = "admin" ∨ caller.user_id = target)
    (hex : (st.users.find? (fun u => u.id == target)).isSome = true)
    (hcpu : cpuUsageOf o = some cv)
    (hmem : memUsageOf o = some mv)
    (hdisk : diskUsageOf o = some dv)
    (hacc : (∃ m, o.nvidiaApps = CmdRes.raised m) ∨
            (∃ rc out, o.nvidiaApps = CmdRes.ran rc out ∧ rc ≠ 0)) :
    getResourceUsage st token now target o =
      (.ok { cpu_usage := cv, mem_usage := mv, disk_usage := dv, gpu_usage := [] }, st) := by
  have hgpu : gpuUsageOf o = [] := by
    unfold gpuUsageOf
    rcases hacc with ⟨m, hm⟩ | ⟨rc, out, hro, hrc⟩
    · rw [hm]
    · simp only [hro]
      rw [if_neg (by simpa using hrc)]
  unfold getResourceUsage withAuth get_resource_usage_handler
  simp only [hauth]
  rw [if_neg (by rcases hown with h | h <;> simp [h])]
  cases hfind : st.users.find? (fun u => u.id == target) with
  | none => rw [hfind] at hex; simp at hex
  | some ex => simp only [hfind, hcpu, hmem, hdisk, hgpu]

/-- C9, witness: the admin asks for bob's usage in `sampleState` on a host
without `nvidia-smi`; the request succeeds with an empty accelerator list
and the cpu/memory/disk figures. -/
theorem C9_usage_degrades_witness :
    getResourceUsage sampleState "tokA" 10 2 offlineAccel =
      (.ok { cpu_usage := 3, mem_usage := 2, disk_usage := 42, gpu_usage := [] },
       sampleState) :=
  C9_usage_degrades_without_accelerator sampleState "tokA" 10 2 offlineAccel
    adminCaller 3 2 42 (by decide) (Or.inl rfl) (by decide)
    (by norm_num [cpuUsageOf, offlineAccel])
    (by norm_num [memUsageOf, offlineAccel])
    (by norm_num [diskUsageOf, offlineAccel])
    (Or.inl ⟨"nvidia-smi: command not found", rfl⟩)

/-- C10, confirmed.  The users-table `UPDATE` built at lines 376-393 only
ever writes `email`, `is_active` and `password_hash`: the loop at line 380
explicitly skips the admin fields, so `role` — although accepted in the
request and in `updateable_fields` for admins — is never written.  For
every caller, admin or not, every stored account's role (paired with its
id) is the same after `update_user` as before. -/
theorem C10_update_never_writes_role
    (st : DBState) (token : String) (now : Int) (target : Nat)
    (d : UpdateReq) (applyLimits : ApplyArgs → Bool) :
    ((updateUser st token now target d applyLimits).2).users.map (fun u => (u.id, u.role)) =
      st.users.map (fun u => (u.id, u.role)) := by
  have hmap : ∀ us : List UserRow,
      ((us.map (fun u => if u.id == target then applyUserUpdates d u else u)).map
          (fun u => (u.id, u.role))) = us.map (fun u => (u.id, u.role)) := by
    intro us
    rw [List.map_map]
    apply List.map_congr_left
    intro u hu
    by_cases h : (u.id == target) = true
    · simp [Function.comp, h, applyUserUpdates]
    · simp [Function.comp, h]
  unfold updateUser withAuth update_user_handler
  split
  · rfl
  · beta_reduce
    repeat' split
    all_goals try rfl
    all_goals try exact hmap st.users
    all_goals simp only []
    all_goals repeat' split
    all_goals first
      | rfl
      | exact hmap st.users

end DiyCloud
